import Mathlib

/-! Embedding of the role-assignment authorization core of the NDC UK backend
(`ndcuk_backend/complete_database_setup.sql`): the `roles`, `role_categories`
and `executive_assignments` tables, the `valid_scope` CHECK constraint, and
the PL/pgSQL functions `validate_role_assignment` and `can_assign_role`.
Uuids are modelled as naturals, timestamps as integers; SQL NULL is `Option`. -/

namespace NdcUk

/-- Scope type of a role: CHECK (scope_type IN ('chapter', 'branch', 'both')). -/
inductive ScopeType where
  | chapter
  | branch
  | both
  deriving DecidableEq, Repr

/-- Row of the `role_categories` table (the fields the authorization core reads). -/
structure RoleCategory where
  id : Nat
  name : String
  deriving DecidableEq, Repr

/-- Row of the `roles` table; `category_id` is a nullable FK to `role_categories`. -/
structure Role where
  id : Nat
  name : String
  scope_type : ScopeType
  category_id : Option Nat
  is_active : Bool
  deriving DecidableEq, Repr

/-- Row of the `executive_assignments` table. -/
structure ExecutiveAssignment where
  id : Nat
  user_id : Nat
  role_id : Nat
  chapter_id : Option Nat
  branch_id : Option Nat
  start_date : Int
  end_date : Option Int
  is_active : Bool
  deriving DecidableEq, Repr

/-- Database state: the three tables read by the authorization functions. -/
structure DBState where
  role_categories : List RoleCategory
  roles : List Role
  executive_assignments : List ExecutiveAssignment
  deriving DecidableEq, Repr

/-- SQL equality on nullable uuid columns: `a = b` is satisfied only when both
sides are non-null and equal; `NULL = x` is unknown and an IF treats it as
not satisfied. -/
def sqlEq : Option Nat → Option Nat → Bool
  | some a, some b => a == b
  | _, _ => false

/-- Whether `needle` occurs at the head of `hay` (on character lists). -/
def subAt : List Char → List Char → Bool
  | [], _ => true
  | _ :: _, [] => false
  | a :: as, b :: bs => a == b && subAt as bs

/-- Whether `needle` occurs contiguously anywhere in `hay`. -/
def hasSub (needle : List Char) : List Char → Bool
  | [] => subAt needle []
  | b :: bs => subAt needle (b :: bs) || hasSub needle bs

/-- SQL `name LIKE '%Committee%'` on a role name (case-sensitive substring). -/
def likeCommittee (s : String) : Bool := hasSub "Committee".data s.data

/-- CHECK constraint `valid_scope` on `executive_assignments`: chapter set and
branch null, or chapter null and branch set, or both set. -/
def valid_scope (chapter_id branch_id : Option Nat) : Bool :=
  (chapter_id.isSome && branch_id.isNone) ||
  (chapter_id.isNone && branch_id.isSome) ||
  (chapter_id.isSome && branch_id.isSome)

/-- Lookup of a `roles` row by primary key (`WHERE r.id = p_role_id`). -/
def findRole (db : DBState) (role_id : Nat) : Option Role :=
  db.roles.find? (fun r => r.id == role_id)

/-- Count of a user's active assignments; `validate_role_assignment` computes
this into its `user_current_roles` variable and never uses it afterwards. -/
def user_current_roles (db : DBState) (p_user_id : Nat) : Nat :=
  (db.executive_assignments.filter
    (fun ea => ea.user_id == p_user_id && ea.is_active)).length

/-- PL/pgSQL `validate_role_assignment(p_user_id, p_role_id, p_chapter_id,
p_branch_id)`. The role lookup inner-joins `role_categories` on
`r.category_id = rc.id`, so a role with a null or dangling `category_id`
yields NOT FOUND and the function returns false. Otherwise the result depends
only on the role's scope type and which scope arguments are non-null. The
`user_current_roles` count (see `user_current_roles`) is dead code and omitted
here. -/
def validate_role_assignment (db : DBState) (p_user_id p_role_id : Nat)
    (p_chapter_id p_branch_id : Option Nat) : Bool :=
  match findRole db p_role_id with
  | none => false
  | some r =>
    match r.category_id with
    | none => false
    | some cid =>
      match db.role_categories.find? (fun c => c.id == cid) with
      | none => false
      | some _ =>
        match r.scope_type with
        | ScopeType.chapter => p_chapter_id.isSome
        | ScopeType.branch => p_branch_id.isSome
        | ScopeType.both => p_chapter_id.isSome || p_branch_id.isSome

/-- One iteration of the `can_assign_role` loop body: the three IF rules applied
to one active assignment of the assigner (joined role `r`, assignment branch
scope `ea_branch_id`). `role_details` is the `roles` row of the role being
assigned; when that SELECT found nothing its fields are NULL, so the SQL
comparisons on them are unknown and the IFs are not taken. -/
def assignRuleFires (role_details : Option Role) (target_branch_id : Option Nat)
    (r : Role) (ea_branch_id : Option Nat) : Bool :=
  (r.name == "Chairman") ||
  (r.name == "Secretary" &&
    (match role_details with
     | some rd => likeCommittee rd.name
     | none => false)) ||
  (r.name == "Branch Chairman" &&
    (match role_details with
     | some rd => rd.scope_type == ScopeType.branch || rd.scope_type == ScopeType.both
     | none => false) &&
    sqlEq ea_branch_id target_branch_id)

/-- PL/pgSQL `can_assign_role(assigner_user_id, target_user_id, role_id,
target_chapter_id, target_branch_id)`: loops over the assigner's assignments
with `is_active = true` joined with `roles`, returning true at the first rule
that fires and false if none does. -/
def can_assign_role (db : DBState) (assigner_user_id target_user_id role_id : Nat)
    (target_chapter_id target_branch_id : Option Nat) : Bool :=
  (db.executive_assignments.filter
      (fun ea => ea.user_id == assigner_user_id && ea.is_active)).any
    (fun ea =>
      match findRole db ea.role_id with
      | some r => assignRuleFires (findRole db role_id) target_branch_id r ea.branch_id
      | none => false)

/-- Currently-effective assignment, following the definition in the spec:
is_active = true AND (end_date is null OR end_date is in the future) AND
start_date ≤ now. -/
def currentlyEffective (now : Int) (ea : ExecutiveAssignment) : Bool :=
  ea.is_active &&
  (match ea.end_date with
   | none => true
   | some e => decide (now < e)) &&
  decide (ea.start_date ≤ now)

/-- Whether a role belongs to the role category named Committees, the
designated committee resource category in the seed data. -/
def inCommitteeCategory (db : DBState) (r : Role) : Bool :=
  match r.category_id with
  | none => false
  | some cid => db.role_categories.any (fun c => c.id == cid && c.name == "Committees")

/-- The condition the Secretary rule of `can_assign_role` actually tests on the
target: the role being assigned exists and its name contains the substring
Committee. -/
def targetNameHasCommittee (db : DBState) (role_id : Nat) : Bool :=
  match findRole db role_id with
  | some rd => likeCommittee rd.name
  | none => false

/-- Modelled from the spec: `revoke(actor, assignmentId)` sets end_date = now
and is_active = false (spec 4.4); no revoke implementation is present under
src/, only the `can_assign_role` reader is. -/
def revoke (now : Int) (db : DBState) (assignment_id : Nat) : DBState :=
  { db with executive_assignments :=
      db.executive_assignments.map (fun ea =>
        if ea.id == assignment_id then
          { ea with end_date := some now, is_active := false }
        else ea) }

/-- State with every row of the given assignment id dropped outright. -/
def removeAssignment (db : DBState) (assignment_id : Nat) : DBState :=
  { db with executive_assignments :=
      db.executive_assignments.filter (fun ea => ea.id != assignment_id) }

/-- Rewrites every assignment's start and end dates (as functions of the
assignment id), leaving all other fields and tables unchanged. -/
def setDates (f : Nat → Int) (g : Nat → Option Int) (db : DBState) : DBState :=
  { db with executive_assignments :=
      db.executive_assignments.map (fun ea =>
        { ea with start_date := f ea.id, end_date := g ea.id }) }

/-- Concrete state: user 1 holds an is_active Chairman assignment whose end
date has already passed. -/
def dbExpiredChairman : DBState :=
  ⟨[⟨1, "Chapter Executives"⟩],
   [⟨10, "Chairman", ScopeType.chapter, some 1, true⟩],
   [⟨100, 1, 10, some 50, none, 0, some (-1), true⟩]⟩

/-- Concrete state: one committee-category role and no assignments. -/
def dbCommitteeRole : DBState :=
  ⟨[⟨3, "Committees"⟩],
   [⟨20, "Finance Committee Chair", ScopeType.chapter, some 3, true⟩],
   []⟩

/-- Concrete state: user 1 has only a deactivated Chairman assignment. -/
def dbInactiveOnly : DBState :=
  ⟨[⟨1, "Chapter Executives"⟩],
   [⟨10, "Chairman", ScopeType.chapter, some 1, true⟩],
   [⟨100, 1, 10, some 50, none, 0, none, false⟩]⟩

/-- Concrete state: user 1 holds zero currently-effective assignments at
now = 5 — the single Chairman row is is_active but its end date -2 has
passed. -/
def dbZeroEffective : DBState :=
  ⟨[⟨1, "Chapter Executives"⟩],
   [⟨10, "Chairman", ScopeType.chapter, some 1, true⟩],
   [⟨103, 1, 10, some 50, none, 0, some (-2), true⟩]⟩

/-- Concrete state: user 1 holds a currently-effective Chairman assignment. -/
def dbEffectiveChairman : DBState :=
  ⟨[⟨1, "Chapter Executives"⟩],
   [⟨10, "Chairman", ScopeType.chapter, some 1, true⟩,
    ⟨17, "Branch Secretary", ScopeType.branch, some 1, true⟩],
   [⟨100, 1, 10, some 50, none, 0, none, true⟩]⟩

/-- Concrete state: user 1 holds only an effective Secretary assignment; role 12
is named Welfare Committee but categorized under Chapter Executives, not under
the Committees category. -/
def dbSecretaryActor : DBState :=
  ⟨[⟨1, "Chapter Executives"⟩, ⟨3, "Committees"⟩],
   [⟨11, "Secretary", ScopeType.chapter, some 1, true⟩,
    ⟨12, "Welfare Committee", ScopeType.chapter, some 1, true⟩,
    ⟨13, "Treasurer", ScopeType.chapter, some 1, true⟩],
   [⟨100, 1, 11, some 50, none, 0, none, true⟩]⟩

/-- Concrete state: user 1 holds an effective branch-scoped Branch Chairman
assignment for branch 60 together with an is_active but expired Chairman
assignment; role 17 is a branch-scoped role that could be assigned. -/
def dbBranchChairmanPlusExpired : DBState :=
  ⟨[⟨1, "Chapter Executives"⟩, ⟨2, "Branch Executives"⟩],
   [⟨10, "Chairman", ScopeType.chapter, some 1, true⟩,
    ⟨16, "Branch Chairman", ScopeType.branch, some 2, true⟩,
    ⟨17, "Branch Secretary", ScopeType.branch, some 2, true⟩],
   [⟨101, 1, 16, none, some 60, 0, none, true⟩,
    ⟨102, 1, 10, some 50, none, 0, some (-1), true⟩]⟩

/-- Concrete state: user 1 holds only a branch-scoped Branch Chairman
assignment for branch 60. -/
def dbBranchChairmanOnly : DBState :=
  ⟨[⟨2, "Branch Executives"⟩],
   [⟨16, "Branch Chairman", ScopeType.branch, some 2, true⟩,
    ⟨17, "Branch Secretary", ScopeType.branch, some 2, true⟩],
   [⟨101, 1, 16, none, some 60, 0, none, true⟩]⟩

/-- Concrete state: a chapter-scoped role in an existing category, used to
exercise scope-mismatch rejections. -/
def dbScopeMismatch : DBState :=
  ⟨[⟨1, "Chapter Executives"⟩, ⟨2, "Branch Executives"⟩, ⟨4, "Special Roles"⟩],
   [⟨10, "Chairman", ScopeType.chapter, some 1, true⟩,
    ⟨16, "Branch Chairman", ScopeType.branch, some 2, true⟩,
    ⟨30, "Electoral Commissioner", ScopeType.both, some 4, true⟩],
   []⟩

/-- Concrete state: a role whose category_id is null, with scope-consistent
arguments available. -/
def dbNullCategory : DBState :=
  ⟨[⟨4, "Special Roles"⟩],
   [⟨30, "Electoral Commissioner", ScopeType.both, none, true⟩],
   []⟩

/-- C9: the result of can_assign_role is independent of the target_user_id
argument: for every database state and fixed assigner, role and target scope,
two different target users get the same allow or deny answer. The function
never reads its target_user_id parameter. -/
theorem can_assign_role_target_user_irrelevant (db : DBState)
    (assigner t1 t2 role_id : Nat) (tc tb : Option Nat) :
    can_assign_role db assigner t1 role_id tc tb
      = can_assign_role db assigner t2 role_id tc tb := rfl

/-- Counterexample to C3: in dbZeroEffective user 1 holds zero
currently-effective assignments at now = 5 (the only row is is_active but its
end date has passed), yet can_assign_role still grants, so an actor with zero
effective assignments is not denied every check. -/
theorem deny_by_default_counterexample :
    dbZeroEffective.executive_assignments.filter
        (fun ea => ea.user_id == 1 && currentlyEffective 5 ea) = [] ∧
    can_assign_role dbZeroEffective 1 2 10 none none = true := by decide

/-- C3 amended: deny-by-default holds with respect to active rows: when the
actor has no is_active executive_assignments rows, can_assign_role returns
false for every target user, role and scope. -/
theorem can_assign_role_deny_by_default (db : DBState)
    (assigner target role_id : Nat) (tc tb : Option Nat)
    (h : ∀ ea ∈ db.executive_assignments, ea.user_id = assigner → ea.is_active = false) :
    can_assign_role db assigner target role_id tc tb = false := by
  unfold can_assign_role
  have hfil : db.executive_assignments.filter
      (fun ea => ea.user_id == assigner && ea.is_active) = [] := by
    rw [List.filter_eq_nil_iff]
    intro ea hmem
    simp only [Bool.and_eq_true, beq_iff_eq, not_and, Bool.not_eq_true]
    exact h ea hmem
  rw [hfil]
  rfl

/-- Witness for C3 at a concrete state: user 1 has only a deactivated
assignment and is denied. -/
theorem can_assign_role_deny_by_default_witness :
    can_assign_role dbInactiveOnly 1 2 10 none none = false :=
  can_assign_role_deny_by_default dbInactiveOnly 1 2 10 none none (by decide)

/-- C10: for every role whose category_id is null, validate_role_assignment
returns false for every combination of chapter and branch arguments: the role
lookup inner-joins role_categories, so an uncategorized role is treated as not
found. -/
theorem validate_rejects_uncategorized_role (db : DBState) (u rid : Nat) (r : Role)
    (hfind : findRole db rid = some r) (hcat : r.category_id = none)
    (ch br : Option Nat) :
    validate_role_assignment db u rid ch br = false := by
  simp only [validate_role_assignment, hfind, hcat]

/-- Witness for C10: the uncategorized Electoral Commissioner role is rejected
even with scope fields fully consistent with its scope type. -/
theorem validate_rejects_uncategorized_role_witness :
    validate_role_assignment dbNullCategory 7 30 (some 50) (some 60) = false :=
  validate_rejects_uncategorized_role dbNullCategory 7 30
    ⟨30, "Electoral Commissioner", ScopeType.both, none, true⟩ rfl rfl (some 50) (some 60)

/-- C8: for every existing role, scope-inconsistent arguments are rejected by
validate_role_assignment: a chapter-scoped role with branch_id set but no
chapter_id, a branch-scoped role with no branch_id, and a both-scoped role
with neither scope set all yield false. -/
theorem validate_rejects_scope_mismatch (db : DBState) (u rid : Nat) (r : Role)
    (hfind : findRole db rid = some r) :
    (r.scope_type = ScopeType.chapter →
        ∀ b : Nat, validate_role_assignment db u rid none (some b) = false) ∧
    (r.scope_type = ScopeType.branch →
        ∀ c : Option Nat, validate_role_assignment db u rid c none = false) ∧
    (r.scope_type = ScopeType.both →
        validate_role_assignment db u rid none none = false) := by
  refine ⟨?_, ?_, ?_⟩
  · intro hs b
    simp only [validate_role_assignment, hfind, hs]
    split
    · rfl
    · split <;> rfl
  · intro hs c
    simp only [validate_role_assignment, hfind, hs]
    split
    · rfl
    · split <;> rfl
  · intro hs
    simp only [validate_role_assignment, hfind, hs]
    split
    · rfl
    · split <;> rfl

/-- Witness for C8 at a concrete state holding a chapter role, a branch role
and a both role. -/
theorem validate_rejects_scope_mismatch_witness :
    (ScopeType.chapter = ScopeType.chapter →
        ∀ b : Nat, validate_role_assignment dbScopeMismatch 7 10 none (some b) = false) ∧
    (ScopeType.chapter = ScopeType.branch →
        ∀ c : Option Nat, validate_role_assignment dbScopeMismatch 7 10 c none = false) ∧
    (ScopeType.chapter = ScopeType.both →
        validate_role_assignment dbScopeMismatch 7 10 none none = false) :=
  validate_rejects_scope_mismatch dbScopeMismatch 7 10
    ⟨10, "Chairman", ScopeType.chapter, some 1, true⟩ rfl

/-- C2: every assignment admitted by the valid_scope CHECK constraint together
with validate_role_assignment has scope fields consistent with the referenced
role's scope type: chapter-scoped roles have chapter_id set, branch-scoped
roles have branch_id set, both-scoped roles have at least one of the two. -/
theorem validate_admits_only_consistent_scopes (db : DBState) (u rid : Nat)
    (ch br : Option Nat) (r : Role)
    (hfind : findRole db rid = some r)
    (hcheck : valid_scope ch br = true)
    (hval : validate_role_assignment db u rid ch br = true) :
    (r.scope_type = ScopeType.chapter → ch.isSome = true) ∧
    (r.scope_type = ScopeType.branch → br.isSome = true) ∧
    (r.scope_type = ScopeType.both → (ch.isSome = true ∨ br.isSome = true)) := by
  simp only [validate_role_assignment, hfind] at hval
  split at hval
  · simp at hval
  · split at hval
    · simp at hval
    · refine ⟨?_, ?_, ?_⟩ <;> intro hs <;> rw [hs] at hval <;> simp_all

/-- Helper: filtering then testing any is testing any of the conjunction. -/
theorem any_filter_eq_any_and {α : Type} (p q : α → Bool) (l : List α) :
    (l.filter p).any q = l.any (fun x => p x && q x) := by
  induction l with
  | nil => rfl
  | cons x xs ih => cases hx : p x <;> simp [List.filter_cons, hx, ih]

/-- Helper: an any-over-filter scan is unchanged by mapping the list with a
function that preserves the fields the filter and the body read. -/
theorem any_filter_map_congr {α : Type} (m : α → α) (p q : α → Bool)
    (hp : ∀ x, p (m x) = p x) (hq : ∀ x, q (m x) = q x) (l : List α) :
    ((l.map m).filter p).any q = (l.filter p).any q := by
  rw [any_filter_eq_any_and, any_filter_eq_any_and, List.any_map]
  induction l with
  | nil => rfl
  | cons x xs ih => simp [List.any_cons, Function.comp, hp x, hq x, ih]

/-- C4: super-authority: an actor holding a currently-effective assignment
whose role is named Chairman is allowed by can_assign_role for every target
user, role and scope. -/
theorem can_assign_role_chairman_superauthority (db : DBState) (now : Int)
    (assigner target role_id : Nat) (tc tb : Option Nat)
    (ea : ExecutiveAssignment) (r : Role)
    (hmem : ea ∈ db.executive_assignments)
    (huser : ea.user_id = assigner)
    (heff : currentlyEffective now ea = true)
    (hrole : findRole db ea.role_id = some r)
    (hname : r.name = "Chairman") :
    can_assign_role db assigner target role_id tc tb = true := by
  have hact : ea.is_active = true := by
    unfold currentlyEffective at heff
    simp only [Bool.and_eq_true] at heff
    exact heff.1.1
  unfold can_assign_role
  rw [List.any_eq_true]
  refine ⟨ea, List.mem_filter.mpr ⟨hmem, ?_⟩, ?_⟩
  · simp [huser, hact]
  · rw [hrole]
    simp [assignRuleFires, hname]

/-- Witness for C4: the effective Chairman of dbEffectiveChairman may assign a
branch-scoped role in an arbitrary branch. -/
theorem can_assign_role_chairman_superauthority_witness :
    can_assign_role dbEffectiveChairman 1 2 17 none (some 60) = true :=
  can_assign_role_chairman_superauthority dbEffectiveChairman 5 1 2 17 none (some 60)
    ⟨100, 1, 10, some 50, none, 0, none, true⟩
    ⟨10, "Chairman", ScopeType.chapter, some 1, true⟩
    (by decide) rfl (by decide) rfl rfl

/-- Counterexample to C1: in dbExpiredChairman the actor's only assignment is
is_active with an end_date already in the past (so it is not currently
effective at now = 5), yet can_assign_role still grants. -/
theorem can_assign_role_expired_assignment_grants :
    dbExpiredChairman.executive_assignments
        = [⟨100, 1, 10, some 50, none, 0, some (-1), true⟩] ∧
    (⟨100, 1, 10, some 50, none, 0, some (-1), true⟩ : ExecutiveAssignment).is_active
        = true ∧
    ((-1 : Int) < 5) ∧
    currentlyEffective 5 ⟨100, 1, 10, some 50, none, 0, some (-1), true⟩ = false ∧
    can_assign_role dbExpiredChairman 1 2 10 none none = true := by decide

/-- C1 amended: can_assign_role consults only the is_active flag of the
assigner's assignments and never their dates: its result is unchanged by an
arbitrary rewrite of every assignment's start_date and end_date, so an
is_active assignment whose end_date lies in the past still confers exactly the
permissions it would confer with any other dates. -/
theorem can_assign_role_ignores_dates (f : Nat → Int) (g : Nat → Option Int)
    (db : DBState) (assigner target role_id : Nat) (tc tb : Option Nat) :
    can_assign_role (setDates f g db) assigner target role_id tc tb
      = can_assign_role db assigner target role_id tc tb := by
  have hroles : (setDates f g db).roles = db.roles := rfl
  have hea : (setDates f g db).executive_assignments
      = db.executive_assignments.map
        (fun ea => { ea with start_date := f ea.id, end_date := g ea.id }) := rfl
  unfold can_assign_role findRole
  rw [hroles, hea]
  apply any_filter_map_congr
  · intro x; rfl
  · intro x; rfl

/-- Witness for C2: a chapter-scoped committee role assigned with chapter_id
set passes both checks, and the consistency conclusions hold. -/
theorem validate_admits_only_consistent_scopes_witness :
    ((⟨20, "Finance Committee Chair", ScopeType.chapter, some 3, true⟩ : Role).scope_type
        = ScopeType.chapter → (some 50 : Option Nat).isSome = true) ∧
    ((⟨20, "Finance Committee Chair", ScopeType.chapter, some 3, true⟩ : Role).scope_type
        = ScopeType.branch → (none : Option Nat).isSome = true) ∧
    ((⟨20, "Finance Committee Chair", ScopeType.chapter, some 3, true⟩ : Role).scope_type
        = ScopeType.both →
      ((some 50 : Option Nat).isSome = true ∨ (none : Option Nat).isSome = true)) :=
  validate_admits_only_consistent_scopes dbCommitteeRole 7 20 (some 50) none
    ⟨20, "Finance Committee Chair", ScopeType.chapter, some 3, true⟩
    rfl (by decide) (by decide)

/-- Counterexample to C5: in dbSecretaryActor the actor's only (and currently
effective) assignment is the Secretary role; target role 12 does not belong to
the Committees category, yet can_assign_role allows the assignment because the
role's name contains the substring Committee. -/
theorem secretary_rule_category_counterexample :
    dbSecretaryActor.executive_assignments
        = [⟨100, 1, 11, some 50, none, 0, none, true⟩] ∧
    currentlyEffective 5 ⟨100, 1, 11, some 50, none, 0, none, true⟩ = true ∧
    findRole dbSecretaryActor 11
        = some ⟨11, "Secretary", ScopeType.chapter, some 1, true⟩ ∧
    findRole dbSecretaryActor 12
        = some ⟨12, "Welfare Committee", ScopeType.chapter, some 1, true⟩ ∧
    inCommitteeCategory dbSecretaryActor
        ⟨12, "Welfare Committee", ScopeType.chapter, some 1, true⟩ = false ∧
    can_assign_role dbSecretaryActor 1 2 12 none none = true := by decide

/-- C5 amended: for an actor all of whose is_active assignments resolve to the
role named Secretary, with at least one such assignment, can_assign_role
returns true exactly when the target role exists and its name contains the
substring Committee; membership in the Committees category is not consulted. -/
theorem secretary_rule_matches_name_not_category (db : DBState)
    (assigner target role_id : Nat) (tc tb : Option Nat)
    (hne : db.executive_assignments.filter
        (fun ea => ea.user_id == assigner && ea.is_active) ≠ [])
    (hsec : ∀ ea ∈ db.executive_assignments, ea.user_id = assigner →
        ea.is_active = true →
        (findRole db ea.role_id).map Role.name = some "Secretary") :
    can_assign_role db assigner target role_id tc tb
      = targetNameHasCommittee db role_id := by
  unfold can_assign_role
  have hbody : ∀ ea ∈ db.executive_assignments.filter
      (fun ea => ea.user_id == assigner && ea.is_active),
      (match findRole db ea.role_id with
       | some r => assignRuleFires (findRole db role_id) tb r ea.branch_id
       | none => false) = targetNameHasCommittee db role_id := by
    intro ea hmem
    obtain ⟨hmem', hcond⟩ := List.mem_filter.mp hmem
    simp only [Bool.and_eq_true, beq_iff_eq] at hcond
    have hname := hsec ea hmem' hcond.1 hcond.2
    cases hfr : findRole db ea.role_id with
    | none =>
      rw [hfr] at hname
      exact Option.noConfusion hname
    | some r =>
      rw [hfr] at hname
      have hrn : r.name = "Secretary" := Option.some.inj hname
      simp only [assignRuleFires, hrn]
      have e1 : ("Secretary" == "Chairman") = false := by decide
      have e2 : ("Secretary" == "Secretary") = true := by decide
      have e3 : ("Secretary" == "Branch Chairman") = false := by decide
      rw [e1, e2, e3]
      simp only [Bool.false_or, Bool.true_and, Bool.false_and, Bool.or_false]
      rfl
  cases hc : targetNameHasCommittee db role_id with
  | true =>
    rw [List.any_eq_true]
    obtain ⟨ea, hmem⟩ := List.exists_mem_of_ne_nil _ hne
    exact ⟨ea, hmem, by simp only [hbody ea hmem, hc]⟩
  | false =>
    rw [List.any_eq_false]
    intro ea hmem
    simp [hbody ea hmem, hc]

/-- Witness for C5 amended: the Secretary of dbSecretaryActor gets exactly the
name-based answer on target role 12. -/
theorem secretary_rule_matches_name_not_category_witness :
    can_assign_role dbSecretaryActor 1 2 12 none none
      = targetNameHasCommittee dbSecretaryActor 12 :=
  secretary_rule_matches_name_not_category dbSecretaryActor 1 2 12 none none
    (by decide) (by decide)

/-- Counterexample to C6: in dbBranchChairmanPlusExpired the actor's only
currently-effective assignment is a branch-scoped Branch Chairman assignment
for branch 60, yet an operation targeting branch 61 is allowed, because an
is_active but expired Chairman assignment is still consulted. -/
theorem branch_scoping_counterexample :
    dbBranchChairmanPlusExpired.executive_assignments.filter (currentlyEffective 5)
        = [⟨101, 1, 16, none, some 60, 0, none, true⟩] ∧
    findRole dbBranchChairmanPlusExpired 16
        = some ⟨16, "Branch Chairman", ScopeType.branch, some 2, true⟩ ∧
    (⟨101, 1, 16, none, some 60, 0, none, true⟩ : ExecutiveAssignment).branch_id
        = some 60 ∧
    (some 61 : Option Nat) ≠ some 60 ∧
    can_assign_role dbBranchChairmanPlusExpired 1 2 17 none (some 61) = true := by
  decide

/-- C6 amended: for an actor all of whose is_active assignments resolve to the
role named Branch Chairman with assignment branch_id = some B, every
can_assign_role call whose target_branch_id differs from some B (including a
null target branch) is denied. -/
theorem branch_chairman_denied_other_branch (db : DBState) (B : Nat)
    (assigner target role_id : Nat) (tc tb : Option Nat)
    (hbc : ∀ ea ∈ db.executive_assignments, ea.user_id = assigner →
        ea.is_active = true →
        ((findRole db ea.role_id).map Role.name = some "Branch Chairman" ∧
         ea.branch_id = some B))
    (htb : tb ≠ some B) :
    can_assign_role db assigner target role_id tc tb = false := by
  unfold can_assign_role
  rw [List.any_eq_false]
  intro ea hmem
  obtain ⟨hmem', hcond⟩ := List.mem_filter.mp hmem
  simp only [Bool.and_eq_true, beq_iff_eq] at hcond
  obtain ⟨hname, hbr⟩ := hbc ea hmem' hcond.1 hcond.2
  have hs : sqlEq (some B) tb = false := by
    cases tb with
    | none => rfl
    | some c =>
      simp only [sqlEq, beq_eq_false_iff_ne]
      intro hBc
      exact htb (by rw [hBc])
  cases hfr : findRole db ea.role_id with
  | none => intro hcontra; exact Bool.noConfusion hcontra
  | some r =>
    rw [hfr] at hname
    have hrn : r.name = "Branch Chairman" := Option.some.inj hname
    have hfalse : assignRuleFires (findRole db role_id) tb r ea.branch_id = false := by
      simp only [assignRuleFires, hrn, hbr]
      have e1 : ("Branch Chairman" == "Chairman") = false := by decide
      have e2 : ("Branch Chairman" == "Secretary") = false := by decide
      have e3 : ("Branch Chairman" == "Branch Chairman") = true := by decide
      rw [e1, e2, e3, hs]
      simp
    simp [hfalse]

/-- Witness for C6 amended: the Branch Chairman for branch 60 in
dbBranchChairmanOnly is denied an assignment targeting branch 61. -/
theorem branch_chairman_denied_other_branch_witness :
    can_assign_role dbBranchChairmanOnly 1 2 17 none (some 61) = false :=
  branch_chairman_denied_other_branch dbBranchChairmanOnly 60 1 2 17 none (some 61)
    (by decide) (by decide)

/-- Helper: revoking an assignment id makes the active-assignment any-scan of a
list agree with the scan over the list with those rows dropped outright. -/
theorem revoke_any_eq (now : Int) (aid assigner : Nat)
    (q : ExecutiveAssignment → Bool) :
    ∀ l : List ExecutiveAssignment,
      ((l.map (fun ea => if ea.id == aid then
          { ea with end_date := some now, is_active := false } else ea)).filter
        (fun ea => ea.user_id == assigner && ea.is_active)).any q
      = ((l.filter (fun ea => ea.id != aid)).filter
          (fun ea => ea.user_id == assigner && ea.is_active)).any q := by
  intro l
  rw [any_filter_eq_any_and, any_filter_eq_any_and, any_filter_eq_any_and,
    List.any_map]
  induction l with
  | nil => rfl
  | cons x xs ih =>
    simp only [List.any_cons]
    rw [ih]
    congr 1
    by_cases hx : x.id = aid
    · simp [Function.comp, hx]
    · simp [Function.comp, hx]

/-- C7: revocation immediacy: evaluating can_assign_role on the state updated
by revoke gives exactly the answer it gives on the state with the revoked
assignment removed from the ledger, for every actor and target — the revoked
assignment contributes no permission to any subsequent decision. -/
theorem can_assign_role_revocation_immediate (now : Int) (db : DBState) (aid : Nat)
    (assigner target role_id : Nat) (tc tb : Option Nat) :
    can_assign_role (revoke now db aid) assigner target role_id tc tb
      = can_assign_role (removeAssignment db aid) assigner target role_id tc tb := by
  have hroles1 : (revoke now db aid).roles = db.roles := rfl
  have hroles2 : (removeAssignment db aid).roles = db.roles := rfl
  have hea1 : (revoke now db aid).executive_assignments
      = db.executive_assignments.map (fun ea => if ea.id == aid then
          { ea with end_date := some now, is_active := false } else ea) := rfl
  have hea2 : (removeAssignment db aid).executive_assignments
      = db.executive_assignments.filter (fun ea => ea.id != aid) := rfl
  unfold can_assign_role findRole
  rw [hroles1, hroles2, hea1, hea2]
  exact revoke_any_eq now aid assigner _ db.executive_assignments

end NdcUk
